import Mathlib

/-!
Verification development for the ExcelWhisperer generation-execution
pipeline.  The definitions below are a shallow embedding of the server
code: the pandas child script and its Node parent wrapper
(server/services/pythonExecutor.ts, `executePandasCode`), the Gemini
client (`generatePandasCode`, `improveCode`), the Express route
handlers (`/api/run`, `/api/download/:runId`, `/api/playbooks/:id/run`
in routes.ts), and the client-side parameter binding
(GeneratedCode component, `initialParams` / `handleParameterChange`).
Machine text is modelled with Lean `String`; JSON values with a small
inductive `Js`; JavaScript objects with insertion-ordered association
lists; fallible steps with `Except`/`Option`.
-/

/-- JSON-style scalar values as they appear in parameter maps and rows. -/
inductive Js where
  | str (s : String)
  | num (n : Int)
  | bool (b : Bool)
  | null
deriving DecidableEq

/-- One tabular row: a JSON record, keys in insertion order. -/
abbrev Row := List (String × Js)

/-- Possible Python values returned by the unit entry function
`transform_data`: either a pandas DataFrame (modelled by its records) or a
value of any other runtime type (scalar, list, None, ...). -/
inductive PyVal where
  | df (rows : List Row)
  | other (desc : String)
deriving DecidableEq

/-- The `summary` object the child script builds on success. -/
structure Summary where
  originalRowCount : Nat
  resultRowCount : Nat
  rowsAffected : Nat
  preview : List Row
deriving DecidableEq

/-- The single record the child script writes to the output handoff file:
either the success object (`success: true` with data and summary) or the
failure object (`success: false` with the stringified exception). -/
inductive ChildOutput where
  | ok (data : List Row) (summary : Summary)
  | fail (error : String)
deriving DecidableEq

/-- Error text of the ValueError the child raises for a wrong return type
(pythonExecutor.ts line 86). -/
def pyContractError : String := "transform_data must return a pandas DataFrame"

/-- Embedding of the try/except body of the embedded python script
(pythonExecutor.ts lines 70-116).  `transform` models the user-defined
`transform_data`: `.error e` is a raised exception with message `str(e)`,
`.ok v` a normal return of the Python value `v`.  The script calls
`transform_data(df)`, raises ValueError when the result is not a
DataFrame, and otherwise computes `rows_affected =
abs(original_row_count - result_row_count)` and `preview =
result_data[:10]`; the outer except turns any raised exception into the
failure record.  The `where/notnull` null-normalisation is the identity
on the modelled rows.  Exactly one output record is produced on every
path. -/
def runChildScript (transform : List Row → Except String PyVal)
    (input : List Row) : ChildOutput :=
  match transform input with
  | .error e => .fail e
  | .ok (.other _) => .fail pyContractError
  | .ok (.df rows) =>
      .ok rows
        { originalRowCount := input.length
          resultRowCount := rows.length
          rowsAffected := ((input.length : Int) - (rows.length : Int)).natAbs
          preview := rows.take 10 }

/-- The `ExecutionResult` interface of pythonExecutor.ts (lines 7-18).
Optional fields are `Option`; absent fields are `none`.  There is no
error-kind field: a failure carries only the message string. -/
structure ExecutionResult where
  success : Bool
  data : Option (List Row) := none
  summary : Option Summary := none
  error : Option String := none
  executionTime : Nat
deriving DecidableEq

/-- Embedding of the parent `close` handler (pythonExecutor.ts lines
144-172).  `exitCode` is Node s report for the child: `some c` for a
normal exit with code `c`, `none` for a signal-terminated child — in
particular a child killed by the 30-second spawn `timeout` option.
`readOut` models `fs.readFile` + `JSON.parse` of the output handoff file
(`.error m` when reading or parsing throws with message `m`); it is
consulted only on the `code === 0` branch.  `t` is the measured
execution time.  The spread `{...output, executionTime}` copies the
parsed child record into the result. -/
def closeHandler (exitCode : Option Int) (stderr : String)
    (readOut : Except String ChildOutput) (t : Nat) : ExecutionResult :=
  if exitCode = some 0 then
    match readOut with
    | .ok (.ok rows s) =>
        { success := true, data := some rows, summary := some s, executionTime := t }
    | .ok (.fail e) =>
        { success := false, error := some e, executionTime := t }
    | .error m =>
        { success := false
          error := some ("Failed to process execution result: " ++ m)
          executionTime := t }
  else
    { success := false
      error := some (if stderr = "" then "Python execution failed" else stderr)
      executionTime := t }

/-- Composition of child and parent on the nominal path: the script runs
to completion (it catches every exception and writes one record, so the
interpreter exits 0) and the parent parses the record it wrote. -/
def executeWithChild (transform : List Row → Except String PyVal)
    (input : List Row) (stderr : String) (t : Nat) : ExecutionResult :=
  closeHandler (some 0) stderr (.ok (runChildScript transform input)) t

/-- An apostrophe character, used to build the import-gate error texts. -/
def apos : String := String.singleton (Char.ofNat 39)

/-- The `dangerous_modules` set of the denylist import gate
(pythonExecutor.ts lines 55-60). -/
def dangerousModules : List String :=
  ["os", "sys", "subprocess", "shutil", "socket", "threading",
   "multiprocessing", "ctypes", "mmap", "fcntl", "resource",
   "signal", "pwd", "grp", "termios", "pty", "posix", "winreg",
   "msvcrt", "_winapi", "win32api", "win32con", "win32security"]

/-- The `allowed_modules` set of the superseded allowlist variant of the
gate (pythonExecutor.ts lines 256-259). -/
def allowedModules : List String :=
  ["pandas", "numpy", "datetime", "json", "math", "statistics",
   "collections", "itertools", "functools", "operator", "re"]

/-- Python `name.split(".")[0]`: the base module of a dotted module path. -/
def moduleBase (name : String) : String :=
  (name.toList.takeWhile (fun c => c != Char.ofNat 46)).asString

/-- Embedding of `restricted_import` in the denylist variant
(pythonExecutor.ts lines 53-66): raise ImportError when the base module
is in the dangerous set, otherwise delegate to the saved
`original_import`, modelled by the parameter `original`. -/
def restrictedImport (original : String → Except String Unit)
    (name : String) : Except String Unit :=
  if moduleBase name ∈ dangerousModules then
    .error ("Module " ++ apos ++ name ++ apos ++ " is not allowed for security reasons")
  else original name

/-- Embedding of `restricted_import` in the superseded allowlist variant
(pythonExecutor.ts lines 255-262): raise ImportError unless the base
module is in the allowed set. -/
def restrictedImportAllowlist (original : String → Except String Unit)
    (name : String) : Except String Unit :=
  if moduleBase name ∈ allowedModules then original name
  else .error ("Module " ++ apos ++ name ++ apos ++ " is not allowed")

/-- Presence of the three run-unique handoff artifacts of one
`executePandasCode` call on the filesystem. -/
structure TempFiles where
  inputFile : Bool
  outputFile : Bool
  scriptFile : Bool
deriving DecidableEq

/-- Outcome of `spawn` for the child process: the `error` event (the
child could not be started) or the `close` event with the exit report
and collected stderr.  `childWroteOutput` records whether the child got
far enough to create the output handoff file. -/
inductive SpawnOutcome where
  | spawnErr (msg : String)
  | closed (exitCode : Option Int) (stderr : String) (childWroteOutput : Bool)

/-- Failure result of the outer catch (pythonExecutor.ts lines 184-189). -/
def setupErrorResult (m : String) (t : Nat) : ExecutionResult :=
  { success := false
    error := some ("Execution setup error: " ++ m)
    executionTime := t }

/-- The try-block of `executePandasCode` (pythonExecutor.ts lines 32-189)
as a function from the outcome of each effect to the produced result and
the handoff files existing when the block ends.  `writeInput` and
`writeScript` model the two `fs.writeFile` calls (a file exists exactly
when its write succeeded), `spawn` the child process, `readOut` the
output-file read in the close handler. -/
def executeAttempt (writeInput writeScript : Except String Unit)
    (spawn : SpawnOutcome) (readOut : Except String ChildOutput)
    (t : Nat) : ExecutionResult × TempFiles :=
  match writeInput with
  | .error m => (setupErrorResult m t, ⟨false, false, false⟩)
  | .ok () =>
    match writeScript with
    | .error m => (setupErrorResult m t, ⟨true, false, false⟩)
    | .ok () =>
      match spawn with
      | .spawnErr m =>
          ({ success := false
             error := some ("Python execution error: " ++ m)
             executionTime := t }, ⟨true, false, true⟩)
      | .closed exitCode stderr wrote =>
          (closeHandler exitCode stderr readOut t, ⟨true, wrote, true⟩)

/-- The `finally` block (pythonExecutor.ts lines 190-201): unlink each of
the three handoff files, ignoring individual unlink errors. -/
def cleanupTempFiles (fs : TempFiles) : TempFiles :=
  { fs with inputFile := false, outputFile := false, scriptFile := false }

/-- Model of `executePandasCode` with its filesystem footprint: run the try-block,
then the `finally` cleanup, and return the result together with the
handoff files still present when the call returns. -/
def executePandasCodeFS (writeInput writeScript : Except String Unit)
    (spawn : SpawnOutcome) (readOut : Except String ChildOutput)
    (t : Nat) : ExecutionResult × TempFiles :=
  let step := executeAttempt writeInput writeScript spawn readOut t
  (step.1, cleanupTempFiles step.2)

/-- Outcome of one `/api/run` request past its validation guards:
the stored run status, the executor results produced during the request,
and the ordered list of service functions the handler body invokes. -/
structure RunHandlerOutcome where
  runStatus : String
  attempts : List ExecutionResult
  serviceCalls : List String
deriving DecidableEq

/-- Embedding of the `/api/run` handler body after its guards
(routes.ts, lines 957-992 of the concatenated server source): create the
run record, invoke `executePandasCode` exactly once on the sheet preview,
then update the run to `completed` or `failed`.  `serviceCalls` is the
sequence of storage/generator/executor functions the handler body calls;
`improveCode` is absent because the identifier has no call site anywhere
in the repository — the handler performs no repair and re-executes
nothing. -/
def apiRunHandler (execResult : ExecutionResult) : RunHandlerOutcome :=
  if execResult.success then
    { runStatus := "completed"
      attempts := [execResult]
      serviceCalls := ["storage.createRun", "executePandasCode", "storage.updateRunStatus"] }
  else
    { runStatus := "failed"
      attempts := [execResult]
      serviceCalls := ["storage.createRun", "executePandasCode", "storage.updateRunStatus"] }

/-- One declared parameter of a generated unit (gemini.ts,
`CodeGenerationResult.parameters` items). -/
structure DeclaredParam where
  name : String
  type : String
  defaultValue : Js
  description : Option String := none
deriving DecidableEq

/-- The `CodeGenerationResult` interface of gemini.ts (lines 405-415). -/
structure CodeGenerationResult where
  code : String
  confidence : String
  parameters : List DeclaredParam
  explanation : String
deriving DecidableEq

/-- A successfully parsed model response: each schema field may be
missing (`none`).  `JSON.parse(response.text || "\x7b\x7d")` yields the
all-`none` record for an empty response text. -/
structure ParsedGenResponse where
  code : Option String := none
  confidence : Option String := none
  parameters : Option (List DeclaredParam) := none
  explanation : Option String := none
deriving DecidableEq

/-- JavaScript `v || d` for string fields: `undefined` and the empty
string are falsy and fall back to the default. -/
def jsOrString (v : Option String) (d : String) : String :=
  match v with
  | none => d
  | some s => if s = "" then d else s

/-- Embedding of `generatePandasCode` (gemini.ts lines 417-517) as a
function of the remote-call outcome.  `.error e` covers every throw
inside the try-block — the network call failing as well as `JSON.parse`
throwing on unparsable text — and lands in the catch, which builds the
comment-stub unit.  `.ok r` is a parsed response record; each field is
defaulted independently with `||` (an array value is always truthy in
JavaScript, so only a missing `parameters` field is replaced). -/
def generatePandasCode (remote : Except String ParsedGenResponse) :
    CodeGenerationResult :=
  match remote with
  | .ok r =>
      { code := jsOrString r.code "# Unable to generate code"
        confidence := jsOrString r.confidence "low"
        parameters := r.parameters.getD []
        explanation := jsOrString r.explanation "Code generation failed" }
  | .error e =>
      { code := "# Error generating code: " ++ e
        confidence := "low"
        parameters := []
        explanation := "Failed to generate code due to an error" }

/-- Embedding of `improveCode` (gemini.ts lines 519-592), the repair
entry point, with the same shape and its own default texts. -/
def improveCode (remote : Except String ParsedGenResponse) :
    CodeGenerationResult :=
  match remote with
  | .ok r =>
      { code := jsOrString r.code "# Unable to fix code"
        confidence := jsOrString r.confidence "low"
        parameters := r.parameters.getD []
        explanation := jsOrString r.explanation "Code fix failed" }
  | .error e =>
      { code := "# Error fixing code: " ++ e
        confidence := "low"
        parameters := []
        explanation := "Failed to fix code due to an error" }

/-- If `pat` is a leading pattern of `s`, return the remainder of `s`
after it, else `none`. -/
def eatPat : List Char → List Char → Option (List Char)
  | [], rest => some rest
  | _ :: _, [] => none
  | p :: ps, c :: cs => if p = c then eatPat ps cs else none

/-- One left-to-right pass replacing every (leftmost, non-overlapping)
occurrence of `pat` by `rep`; `fuel` bounds the scan and is instantiated
with the length of the scanned text. -/
def replaceLoop (pat rep : List Char) : Nat → List Char → List Char
  | 0, s => s
  | _ + 1, [] => []
  | fuel + 1, c :: cs =>
    match eatPat pat (c :: cs) with
    | some rest => rep ++ replaceLoop pat rep fuel rest
    | none => c :: replaceLoop pat rep fuel cs

/-- Whether `pat` occurs anywhere in `s` as a contiguous run. -/
def occursIn (pat : List Char) : List Char → Bool
  | [] => decide (pat = [])
  | c :: cs => (eatPat pat (c :: cs)).isSome || occursIn pat cs

/-- JavaScript `s.replace(new RegExp(pat, "g"), rep)` for a pattern
without regex metacharacters: global textual replacement of every
occurrence.  Parameter names are nonempty identifiers, so the empty
pattern is left as the identity. -/
def jsReplaceAll (s pat rep : String) : String :=
  if pat.toList = [] then s
  else (replaceLoop pat.toList rep.toList s.toList.length s.toList).asString

/-- JavaScript `JSON.stringify` on the modelled scalar values (string escaping is
not needed for the plain values considered here). -/
def jsonStringify : Js → String
  | .str s => "\"" ++ s ++ "\""
  | .num n => toString n
  | .bool b => if b then "true" else "false"
  | .null => "null"

/-- Embedding of the parameter substitution of the
`/api/playbooks/:id/run` handler (routes.ts, lines 1079-1087 of the
concatenated server source): for each entry of `parameterMapping`,
replace every occurrence of the parameter name in the playbook source by
`JSON.stringify(value)`.  The handler performs no uniqueness or
collision check before substituting and has no failure path. -/
def applyParameterMapping (code : String) (mapping : List (String × Js)) : String :=
  mapping.foldl (fun c pv => jsReplaceAll c pv.1 (jsonStringify pv.2)) code

/-- A JavaScript object as an insertion-ordered association list. -/
abbrev Obj := List (String × Js)

/-- Keys of an object, in insertion order. -/
def objKeys (m : Obj) : List String := m.map (fun kv => kv.1)

/-- Property read `m[k]`. -/
def objGet (m : Obj) (k : String) : Option Js :=
  (m.find? (fun kv => kv.1 = k)).map (fun kv => kv.2)

/-- Property write `m[k] = v` (also the spread `{...m, [k]: v}`): an
existing key keeps its position and gets the new value, a new key is
appended last. -/
def objSet (m : Obj) (k : String) (v : Js) : Obj :=
  if m.any (fun kv => kv.1 = k) then
    m.map (fun kv => if kv.1 = k then (k, v) else kv)
  else m ++ [(k, v)]

/-- Embedding of the `initialParams` construction in the GeneratedCode
component: for each declared parameter, in order, set
`initialParams[param.name] = param.defaultValue`. -/
def initialParams (declared : List DeclaredParam) : Obj :=
  declared.foldl (fun m p => objSet m p.name p.defaultValue) []

/-- Parameter binding as the client performs it: start from the declared
defaults and fold each supplied override in with
`handleParameterChange` (object spread `{...prev, [name]: value}`).  The
resulting object is the `parameters` map sent to `/api/run` and passed
to `executePandasCode`. -/
def bindParameters (declared : List DeclaredParam) (supplied : Obj) : Obj :=
  supplied.foldl (fun m kv => objSet m kv.1 kv.2) (initialParams declared)

/-- A column descriptor of an uploaded sheet (shared/schema.ts). -/
structure SheetColumn where
  name : String
  type : String
  index : Nat
deriving DecidableEq

/-- One sheet of an upload record (shared/schema.ts `uploads.sheets`):
full-dataset row and column counts plus the bounded preview sample —
the only row data the upload record stores. -/
structure Sheet where
  name : String
  rowCount : Nat
  columnCount : Nat
  columns : List SheetColumn
  preview : List Row
deriving DecidableEq

/-- The fields of a persisted run record (shared/schema.ts `runs`) that
the download handler consults. -/
structure RunRecord where
  id : String
  uploadId : String
  sheetName : String
  generatedCode : String
  parameters : Option Obj
  status : String
  resultSummary : Option Summary
deriving DecidableEq

/-- Lookup `upload.sheets.find(s => s.name === sheetName)`. -/
def findSheet (sheets : List Sheet) (sheetName : String) : Option Sheet :=
  sheets.find? (fun s => s.name = sheetName)

/-- The exact argument triple of one `executePandasCode` invocation. -/
structure ExecCall where
  code : String
  inputData : List Row
  parameters : Obj
deriving DecidableEq

/-- Response of the `/api/download/:runId` handler, reduced to the cases
its body distinguishes. -/
inductive DownloadResponse where
  | notFound (msg : String)
  | serverError (msg : String)
  | file (rows : List Row)
deriving DecidableEq

/-- Embedding of the `/api/download/:runId` handler (routes.ts, lines
1003-1042 of the concatenated server source): guard on a completed run
with a stored summary, look the original upload and sheet up, then
re-execute the stored generated code via `executePandasCode` on
`sheet.preview` — the persisted summary is never used as the download
payload and no persisted full output exists.  The second component is
the executor invocation the handler performed, if any. -/
def apiDownloadHandler (run : Option RunRecord) (upload : Option (List Sheet))
    (exec : ExecCall → ExecutionResult) : DownloadResponse × Option ExecCall :=
  match run with
  | none => (.notFound "Results not found", none)
  | some r =>
    if r.status = "completed" then
      match r.resultSummary with
      | none => (.notFound "Results not found", none)
      | some _ =>
        match (match upload with
               | none => none
               | some sheets => findSheet sheets r.sheetName) with
        | none => (.notFound "Original data not found", none)
        | some sheet =>
          let call : ExecCall :=
            { code := r.generatedCode
              inputData := sheet.preview
              parameters := r.parameters.getD [] }
          let res := exec call
          if res.success then
            match res.data with
            | some rows => (.file rows, some call)
            | none => (.serverError "Failed to generate download", some call)
          else (.serverError "Failed to generate download", some call)
    else (.notFound "Results not found", none)

/-- The executor invocation the `/api/run` handler performs once its
guards pass (routes.ts, line 971 of the concatenated server source):
`executePandasCode(code, sheet.preview, parameters)` on the sheet found
in the upload record. -/
def apiRunExecCall (upload : Option (List Sheet)) (sheetName code : String)
    (parameters : Obj) : Option ExecCall :=
  match upload with
  | none => none
  | some sheets =>
    (findSheet sheets sheetName).map (fun sheet =>
      { code := code, inputData := sheet.preview, parameters := parameters })

/-- A concrete failed executor result (a child-side KeyError surfaced by
the parent), used to exercise the run-handler model. -/
def failedExecResult : ExecutionResult :=
  { success := false, error := some "KeyError: missing column", executionTime := 120 }

/-- A parseable but schema-violating model response: the required `code`
field is missing while `confidence` is present and reads `high`. -/
def malformedGenResponse : ParsedGenResponse :=
  { code := none, confidence := some "high", parameters := none, explanation := none }

theorem eatPat_eq_some {pat : List Char} :
    ∀ {s rest : List Char}, eatPat pat s = some rest → s = pat ++ rest := by
  induction pat with
  | nil => intro s rest h; simpa [eatPat] using h
  | cons p ps ih =>
    intro s rest h
    cases s with
    | nil => simp [eatPat] at h
    | cons c cs =>
      by_cases hpc : p = c
      · subst hpc
        simp only [eatPat, if_pos rfl] at h
        simpa using ih h
      · simp [eatPat, hpc] at h

theorem occursIn_false_head {pat : List Char} {c : Char} {cs : List Char}
    (h : occursIn pat (c :: cs) = false) :
    eatPat pat (c :: cs) = none ∧ occursIn pat cs = false := by
  cases heq : eatPat pat (c :: cs) with
  | some rest => simp [occursIn, heq] at h
  | none => exact ⟨rfl, by simpa [occursIn, heq] using h⟩

theorem replaceLoop_of_not_occurs {pat rep : List Char} :
    ∀ (fuel : Nat) (s : List Char), s.length ≤ fuel →
      occursIn pat s = false → replaceLoop pat rep fuel s = s := by
  intro fuel
  induction fuel with
  | zero => intro s _ _; rfl
  | succ fuel ih =>
    intro s hlen hocc
    cases s with
    | nil => rfl
    | cons c cs =>
      obtain ⟨heat, htail⟩ := occursIn_false_head hocc
      simp only [replaceLoop, heat]
      have : cs.length ≤ fuel := by
        simpa [List.length_cons, Nat.succ_le_succ_iff] using hlen
      rw [ih cs this htail]

theorem asString_toList (s : String) : s.toList.asString = s := rfl

theorem jsReplaceAll_of_not_occurs {s pat rep : String}
    (hpat : pat.toList ≠ []) (hocc : occursIn pat.toList s.toList = false) :
    jsReplaceAll s pat rep = s := by
  rw [jsReplaceAll, if_neg hpat,
    replaceLoop_of_not_occurs s.toList.length s.toList le_rfl hocc,
    asString_toList]

theorem objAny_eq_true_iff (m : Obj) (k : String) :
    m.any (fun kv => kv.1 = k) = true ↔ k ∈ objKeys m := by
  simp [objKeys, List.any_eq_true, List.mem_map]

theorem objSet_of_not_mem {m : Obj} {k : String} (v : Js)
    (h : k ∉ objKeys m) : objSet m k v = m ++ [(k, v)] := by
  have hany : m.any (fun kv => kv.1 = k) = false := by
    rw [← Bool.not_eq_true, objAny_eq_true_iff]; exact h
  simp [objSet, hany]

theorem objKeys_append (m₁ m₂ : Obj) :
    objKeys (m₁ ++ m₂) = objKeys m₁ ++ objKeys m₂ := by
  simp [objKeys]

theorem objSet_of_mem_keys {m : Obj} {k : String} (v : Js)
    (h : k ∈ objKeys m) :
    objSet m k v = m.map (fun kv => if kv.1 = k then (k, v) else kv) := by
  have hany : m.any (fun kv => kv.1 = k) = true := (objAny_eq_true_iff m k).mpr h
  simp [objSet, hany]

theorem objKeys_objSet_of_mem {m : Obj} {k : String} (v : Js)
    (h : k ∈ objKeys m) : objKeys (objSet m k v) = objKeys m := by
  rw [objSet_of_mem_keys v h, objKeys, List.map_map, objKeys]
  apply List.map_congr_left
  intro kv _
  by_cases hk : kv.1 = k <;> simp [hk]

theorem length_objSet_of_mem {m : Obj} {k : String} (v : Js)
    (h : k ∈ objKeys m) : (objSet m k v).length = m.length := by
  rw [objSet_of_mem_keys v h, List.length_map]

theorem mem_objKeys_cons {kv : String × Js} {rest : Obj} {k : String} :
    k ∈ objKeys (kv :: rest) ↔ k = kv.1 ∨ k ∈ objKeys rest := by
  simp only [objKeys, List.map_cons, List.mem_cons]

theorem objGet_cons (kv : String × Js) (m : Obj) (k : String) :
    objGet (kv :: m) k = if kv.1 = k then some kv.2 else objGet m k := by
  by_cases h : kv.1 = k <;> simp [objGet, List.find?, h]

theorem objGet_mapReplace_self (m : Obj) {k : String} (v : Js)
    (h : k ∈ objKeys m) :
    objGet (m.map (fun kv => if kv.1 = k then (k, v) else kv)) k = some v := by
  induction m with
  | nil => simp [objKeys] at h
  | cons kv rest ih =>
    by_cases hk : kv.1 = k
    · rw [List.map_cons, if_pos hk, objGet_cons]
      simp
    · rw [List.map_cons, if_neg hk, objGet_cons, if_neg hk]
      rcases mem_objKeys_cons.mp h with h1 | h2
      · exact absurd h1.symm hk
      · exact ih h2

theorem objGet_append_self (m : Obj) {k : String} (v : Js)
    (h : k ∉ objKeys m) : objGet (m ++ [(k, v)]) k = some v := by
  induction m with
  | nil =>
    rw [List.nil_append, objGet_cons]
    simp
  | cons kv rest ih =>
    have hk : ¬(kv.1 = k) := fun hkk => h (mem_objKeys_cons.mpr (Or.inl hkk.symm))
    have hrest : k ∉ objKeys rest := fun hr => h (mem_objKeys_cons.mpr (Or.inr hr))
    rw [List.cons_append, objGet_cons, if_neg hk]
    exact ih hrest

theorem objGet_objSet_self (m : Obj) (k : String) (v : Js) :
    objGet (objSet m k v) k = some v := by
  by_cases h : k ∈ objKeys m
  · rw [objSet_of_mem_keys v h]; exact objGet_mapReplace_self m v h
  · rw [objSet_of_not_mem v h]; exact objGet_append_self m v h

theorem objGet_mapReplace_other (m : Obj) {k q : String} (v : Js)
    (hne : q ≠ k) :
    objGet (m.map (fun kv => if kv.1 = k then (k, v) else kv)) q = objGet m q := by
  induction m with
  | nil => rfl
  | cons kv rest ih =>
    rw [List.map_cons, objGet_cons, objGet_cons]
    by_cases hk : kv.1 = k
    · have h1 : ¬((k, v).1 = q) := fun hh => hne hh.symm
      have h2 : ¬(kv.1 = q) := by rw [hk]; exact fun hh => hne hh.symm
      rw [if_pos hk, if_neg h1, if_neg h2]
      exact ih
    · rw [if_neg hk]
      by_cases hq : kv.1 = q
      · rw [if_pos hq, if_pos hq]
      · rw [if_neg hq, if_neg hq]; exact ih

theorem objGet_append_other (m : Obj) {k q : String} (v : Js)
    (hne : q ≠ k) : objGet (m ++ [(k, v)]) q = objGet m q := by
  induction m with
  | nil =>
    rw [List.nil_append, objGet_cons, if_neg (show ¬((k, v).1 = q) from fun hh => hne hh.symm)]
  | cons kv rest ih =>
    rw [List.cons_append, objGet_cons, objGet_cons]
    by_cases hq : kv.1 = q
    · rw [if_pos hq, if_pos hq]
    · rw [if_neg hq, if_neg hq]; exact ih

theorem objGet_objSet_other (m : Obj) {k q : String} (v : Js)
    (hne : q ≠ k) : objGet (objSet m k v) q = objGet m q := by
  by_cases h : k ∈ objKeys m
  · rw [objSet_of_mem_keys v h]; exact objGet_mapReplace_other m v hne
  · rw [objSet_of_not_mem v h]; exact objGet_append_other m v hne

theorem initialParams_go (declared : List DeclaredParam) :
    ∀ (m : Obj), (objKeys m ++ declared.map (fun p => p.name)).Nodup →
      declared.foldl (fun m p => objSet m p.name p.defaultValue) m
        = m ++ declared.map (fun p => (p.name, p.defaultValue)) := by
  induction declared with
  | nil => intro m _; simp
  | cons p ps ih =>
    intro m hnd
    have hdisj := (List.nodup_append.mp hnd).2.2
    have hmem : p.name ∉ objKeys m := fun hin => hdisj hin (by simp)
    rw [List.foldl_cons, objSet_of_not_mem _ hmem]
    have hkeys : objKeys (m ++ [(p.name, p.defaultValue)]) = objKeys m ++ [p.name] := by
      rw [objKeys_append]; rfl
    have hnd' : (objKeys (m ++ [(p.name, p.defaultValue)])
        ++ ps.map (fun p => p.name)).Nodup := by
      rw [hkeys, List.append_assoc]
      simpa using hnd
    rw [ih _ hnd']
    simp

theorem initialParams_eq (declared : List DeclaredParam)
    (hnd : (declared.map (fun p => p.name)).Nodup) :
    initialParams declared = declared.map (fun p => (p.name, p.defaultValue)) := by
  have h := initialParams_go declared [] (by simpa [objKeys] using hnd)
  simpa [initialParams] using h

theorem objKeys_initialParams (declared : List DeclaredParam)
    (hnd : (declared.map (fun p => p.name)).Nodup) :
    objKeys (initialParams declared) = declared.map (fun p => p.name) := by
  rw [initialParams_eq declared hnd, objKeys, List.map_map]
  rfl

theorem objKeys_overrides (supplied : Obj) :
    ∀ m : Obj, (∀ kv ∈ supplied, kv.1 ∈ objKeys m) →
      objKeys (supplied.foldl (fun m kv => objSet m kv.1 kv.2) m) = objKeys m ∧
      (supplied.foldl (fun m kv => objSet m kv.1 kv.2) m).length = m.length := by
  induction supplied with
  | nil => intro m _; exact ⟨rfl, rfl⟩
  | cons kv rest ih =>
    intro m hsub
    have hmem : kv.1 ∈ objKeys m := hsub kv (by simp)
    rw [List.foldl_cons]
    have hkeys := objKeys_objSet_of_mem kv.2 hmem
    have hlen := length_objSet_of_mem kv.2 hmem
    have hsub' : ∀ kv2 ∈ rest, kv2.1 ∈ objKeys (objSet m kv.1 kv.2) := by
      intro kv2 h2
      rw [hkeys]
      exact hsub kv2 (by simp [h2])
    obtain ⟨h1, h2⟩ := ih (objSet m kv.1 kv.2) hsub'
    exact ⟨by rw [h1, hkeys], by rw [h2, hlen]⟩

theorem objGet_overrides_miss (supplied : Obj) :
    ∀ (m : Obj) (k : String), k ∉ objKeys supplied →
      objGet (supplied.foldl (fun m kv => objSet m kv.1 kv.2) m) k = objGet m k := by
  induction supplied with
  | nil => intro m k _; rfl
  | cons kv rest ih =>
    intro m k hk
    have hne : k ≠ kv.1 := fun h => hk (mem_objKeys_cons.mpr (Or.inl h))
    have hrest : k ∉ objKeys rest := fun h => hk (mem_objKeys_cons.mpr (Or.inr h))
    rw [List.foldl_cons, ih _ k hrest, objGet_objSet_other _ _ hne]

theorem objGet_overrides_hit (supplied : Obj) :
    ∀ (m : Obj) (kv : String × Js), (objKeys supplied).Nodup → kv ∈ supplied →
      objGet (supplied.foldl (fun m kv => objSet m kv.1 kv.2) m) kv.1 = some kv.2 := by
  induction supplied with
  | nil => intro m kv _ h; simp at h
  | cons kv0 rest ih =>
    intro m kv hnd hmem
    have hcons : objKeys (kv0 :: rest) = kv0.1 :: objKeys rest := rfl
    rw [hcons] at hnd
    rw [List.foldl_cons]
    rcases List.mem_cons.mp hmem with h | h
    · subst h
      have hnotin : kv.1 ∉ objKeys rest := (List.nodup_cons.mp hnd).1
      rw [objGet_overrides_miss rest _ _ hnotin, objGet_objSet_self]
    · exact ih _ kv (List.nodup_cons.mp hnd).2 h

theorem objGet_defaults (declared : List DeclaredParam) :
    ∀ p ∈ declared, (declared.map (fun p => p.name)).Nodup →
      objGet (declared.map (fun p => (p.name, p.defaultValue))) p.name
        = some p.defaultValue := by
  induction declared with
  | nil => intro p h; simp at h
  | cons q qs ih =>
    intro p hp hnd
    rw [List.map_cons] at hnd ⊢
    have hnd' := List.nodup_cons.mp hnd
    rw [objGet_cons]
    rcases List.mem_cons.mp hp with h | h
    · subst h
      rw [if_pos rfl]
    · have hq : ¬((q.name, q.defaultValue).1 = p.name) := by
        intro hh
        have hpm : p.name ∈ qs.map (fun p => p.name) := List.mem_map.mpr ⟨p, h, rfl⟩
        have hh' : q.name = p.name := hh
        exact hnd'.1 (hh'.symm ▸ hpm)
      rw [if_neg hq]
      exact ih p h hnd'.2

/-- C1: for every transformation unit whose entry function
`transform_data` returns a value that is not a pandas DataFrame,
execution of that unit yields a hard failure carrying the
contract-violation error message — the child writes the failure record
(never a success record with a coerced output) and the parent surfaces
it as an unsuccessful `ExecutionResult` with that message and no output
rows. -/
theorem C1_nonDataFrameReturnIsHardFailure
    (transform : List Row → Except String PyVal) (input : List Row)
    (d : String) (h : transform input = .ok (.other d))
    (stderr : String) (t : Nat) :
    runChildScript transform input = .fail pyContractError ∧
    (executeWithChild transform input stderr t).success = false ∧
    (executeWithChild transform input stderr t).error = some pyContractError ∧
    (executeWithChild transform input stderr t).data = none := by
  have hc : runChildScript transform input = .fail pyContractError := by
    unfold runChildScript
    rw [h]
  refine ⟨hc, ?_, ?_, ?_⟩ <;> simp [executeWithChild, closeHandler, hc]

/-- Witness for C1 at a unit returning a scalar int value (a
non-DataFrame) on an empty input. -/
theorem C1_nonDataFrameReturn_witness :
    runChildScript (fun _ => .ok (.other "int")) [] = .fail pyContractError ∧
    (executeWithChild (fun _ => .ok (.other "int")) [] "" 7).success = false ∧
    (executeWithChild (fun _ => .ok (.other "int")) [] "" 7).error
      = some pyContractError ∧
    (executeWithChild (fun _ => .ok (.other "int")) [] "" 7).data = none :=
  C1_nonDataFrameReturnIsHardFailure (fun _ => .ok (.other "int")) [] "int" rfl "" 7

/-- C2 counterexample: the claim says a failed execution triggers exactly
one `improveCode` repair invocation and leaves two recorded attempts; on
a concrete failed execution the `/api/run` handler invokes `improveCode`
zero times and records exactly one attempt, refuting the claim. -/
theorem C2_counterexample :
    (apiRunHandler failedExecResult).runStatus = "failed" ∧
    (apiRunHandler failedExecResult).attempts.length = 1 ∧
    (apiRunHandler failedExecResult).serviceCalls.count "improveCode" = 0 ∧
    ¬((apiRunHandler failedExecResult).attempts.length = 2 ∧
      (apiRunHandler failedExecResult).serviceCalls.count "improveCode" = 1) := by
  refine ⟨rfl, rfl, rfl, ?_⟩
  intro hcl
  exact absurd hcl.1 (by decide)

/-- C2 amended: repair is never attempted — after a failed execution the
`/api/run` handler records final status `failed` with exactly the one
failing attempt, having invoked `executePandasCode` exactly once and
`improveCode` never. -/
theorem C2_noRepairSingleAttempt (r : ExecutionResult) (h : r.success = false) :
    (apiRunHandler r).runStatus = "failed" ∧
    (apiRunHandler r).attempts = [r] ∧
    (apiRunHandler r).serviceCalls.count "executePandasCode" = 1 ∧
    (apiRunHandler r).serviceCalls.count "improveCode" = 0 := by
  refine ⟨?_, ?_, ?_, ?_⟩ <;> simp [apiRunHandler, h, List.count_cons]

/-- Witness for C2 amended at the concrete failed execution result. -/
theorem C2_noRepairSingleAttempt_witness :
    (apiRunHandler failedExecResult).runStatus = "failed" ∧
    (apiRunHandler failedExecResult).attempts = [failedExecResult] ∧
    (apiRunHandler failedExecResult).serviceCalls.count "executePandasCode" = 1 ∧
    (apiRunHandler failedExecResult).serviceCalls.count "improveCode" = 0 :=
  C2_noRepairSingleAttempt failedExecResult rfl

/-- C3 counterexample: a child killed by the 30-second timeout reaches
the close handler with a signal exit (no exit code); the resulting
`ExecutionResult` is byte-identical to the one produced by an ordinary
child crash with exit code 1 and the same stderr, and its error text is
the generic stderr fallback — nothing classifies the result as
`timeout`. -/
theorem C3_counterexample :
    closeHandler none "" (.error "ENOENT") 30012
      = closeHandler (some 1) "" (.error "ENOENT") 30012 ∧
    (closeHandler none "" (.error "ENOENT") 30012).error
      = some "Python execution failed" ∧
    (closeHandler none "" (.error "ENOENT") 30012).data = none ∧
    "Python execution failed" ≠ "timeout" := by
  refine ⟨rfl, rfl, rfl, by decide⟩

/-- C3 amended: a timed-out (signal-terminated) child yields a generic
failure — unsuccessful, with no transformed rows and no summary, its
error text equal to the captured stderr or the fallback text — and this
result is indistinguishable from an ordinary nonzero-exit failure; the
no-rows half of the claim holds, the timeout classification does not
exist. -/
theorem C3_timeoutIsGenericFailure (stderr : String)
    (readOut : Except String ChildOutput) (t : Nat) :
    (closeHandler none stderr readOut t).success = false ∧
    (closeHandler none stderr readOut t).data = none ∧
    (closeHandler none stderr readOut t).summary = none ∧
    (closeHandler none stderr readOut t).error
      = some (if stderr = "" then "Python execution failed" else stderr) ∧
    closeHandler none stderr readOut t = closeHandler (some 1) stderr readOut t := by
  refine ⟨?_, ?_, ?_, ?_, ?_⟩ <;> simp [closeHandler]

/-- C4: on every completion path of `executePandasCode` — success, child
failure, timeout, spawn error, and setup error — the three run-unique
handoff artifacts are deleted by the `finally` cleanup before the call
returns, so none of them remains on the filesystem. -/
theorem C4_handoffArtifactsDeleted (writeInput writeScript : Except String Unit)
    (spawn : SpawnOutcome) (readOut : Except String ChildOutput) (t : Nat) :
    (executePandasCodeFS writeInput writeScript spawn readOut t).2.inputFile = false ∧
    (executePandasCodeFS writeInput writeScript spawn readOut t).2.outputFile = false ∧
    (executePandasCodeFS writeInput writeScript spawn readOut t).2.scriptFile = false := by
  cases writeInput <;> cases writeScript <;> cases spawn <;>
    simp [executePandasCodeFS, executeAttempt, cleanupTempFiles]

/-- C5: the import gate is the denylist `restricted_import`: an import
whose base module is in the fixed dangerous set raises ImportError with
the security message, and an import whose base module is outside the set
is passed through unchanged to the original import machinery, so it
succeeds whenever the module is available. -/
theorem C5_importGateDenylist (original : String → Except String Unit)
    (name : String) :
    (moduleBase name ∈ dangerousModules →
      restrictedImport original name =
        .error ("Module " ++ apos ++ name ++ apos
          ++ " is not allowed for security reasons")) ∧
    (moduleBase name ∉ dangerousModules →
      restrictedImport original name = original name) := by
  constructor <;> intro h <;> simp [restrictedImport, h]

/-- Witness for C5: `os.path` has dangerous base `os` and is refused;
`pandas` is outside the set and the gate defers to the original import,
which succeeds. -/
theorem C5_importGateDenylist_witness :
    (moduleBase "os.path" ∈ dangerousModules ∧
      restrictedImport (fun _ => .ok ()) "os.path" =
        .error ("Module " ++ apos ++ "os.path" ++ apos
          ++ " is not allowed for security reasons")) ∧
    (moduleBase "pandas" ∉ dangerousModules ∧
      restrictedImport (fun _ => .ok ()) "pandas" = .ok ()) := by
  refine ⟨⟨by decide, (C5_importGateDenylist (fun _ => .ok ()) "os.path").1 (by decide)⟩,
    by decide, ?_⟩
  have h := (C5_importGateDenylist (fun _ => .ok ()) "pandas").2 (by decide)
  simpa using h

/-- C6: every successful result of an execution carries a summary whose
`rowsAffected` equals the absolute difference of `originalRowCount` and
`resultRowCount`. -/
theorem C6_rowsAffectedAbsDiff (transform : List Row → Except String PyVal)
    (input : List Row) (stderr : String) (t : Nat)
    (hsucc : (executeWithChild transform input stderr t).success = true) :
    ∃ s : Summary, (executeWithChild transform input stderr t).summary = some s ∧
      s.rowsAffected
        = ((s.originalRowCount : Int) - (s.resultRowCount : Int)).natAbs := by
  cases htr : transform input with
  | error e =>
    rw [executeWithChild] at hsucc ⊢
    rw [show runChildScript transform input = .fail e by
      unfold runChildScript; rw [htr]] at hsucc
    simp [closeHandler] at hsucc
  | ok v =>
    cases v with
    | other d =>
      rw [executeWithChild] at hsucc ⊢
      rw [show runChildScript transform input = .fail pyContractError by
        unfold runChildScript; rw [htr]] at hsucc
      simp [closeHandler] at hsucc
    | df rows =>
      refine ⟨{ originalRowCount := input.length
                resultRowCount := rows.length
                rowsAffected := ((input.length : Int) - (rows.length : Int)).natAbs
                preview := rows.take 10 }, ?_, rfl⟩
      rw [executeWithChild,
        show runChildScript transform input = .ok rows _ by
          unfold runChildScript; rw [htr]]
      simp [closeHandler]

/-- Witness for C6 at a unit that drops every row of a one-row input:
the summary reads 1 original row, 0 result rows, 1 row affected. -/
theorem C6_rowsAffectedAbsDiff_witness :
    ∃ s : Summary,
      (executeWithChild (fun _ => .ok (.df [])) [[("a", Js.num 1)]] "" 3).summary
        = some s ∧
      s.rowsAffected
        = ((s.originalRowCount : Int) - (s.resultRowCount : Int)).natAbs :=
  C6_rowsAffectedAbsDiff (fun _ => .ok (.df [])) [[("a", Js.num 1)]] "" 3 rfl

/-- C7: parameter binding is total — for a unit with `N` declared
parameters (unique by name) and a supplied-value map covering a strict
subset of their names, the bound map has exactly `N` entries; every
supplied name keeps its supplied value and every missing name is bound
to its declared `defaultValue`. -/
theorem C7_parameterBindingTotal (declared : List DeclaredParam) (supplied : Obj)
    (hd : (declared.map (fun p => p.name)).Nodup)
    (hs : (objKeys supplied).Nodup)
    (hsub : ∀ kv ∈ supplied, kv.1 ∈ declared.map (fun p => p.name))
    (_hstrict : ∃ p ∈ declared, p.name ∉ objKeys supplied) :
    (bindParameters declared supplied).length = declared.length ∧
    (∀ kv ∈ supplied, objGet (bindParameters declared supplied) kv.1 = some kv.2) ∧
    (∀ p ∈ declared, p.name ∉ objKeys supplied →
      objGet (bindParameters declared supplied) p.name = some p.defaultValue) := by
  have hkeys0 : objKeys (initialParams declared) = declared.map (fun p => p.name) :=
    objKeys_initialParams declared hd
  have hsub' : ∀ kv ∈ supplied, kv.1 ∈ objKeys (initialParams declared) := by
    intro kv h
    rw [hkeys0]
    exact hsub kv h
  refine ⟨?_, ?_, ?_⟩
  · unfold bindParameters
    rw [(objKeys_overrides supplied (initialParams declared) hsub').2,
      initialParams_eq declared hd, List.length_map]
  · intro kv h
    exact objGet_overrides_hit supplied (initialParams declared) kv hs h
  · intro p hp hmiss
    unfold bindParameters
    rw [objGet_overrides_miss supplied _ _ hmiss, initialParams_eq declared hd]
    exact objGet_defaults declared p hp hd

/-- Witness for C7: two declared parameters (`threshold` defaulting to
1000 and `label` defaulting to `x`), with only `threshold` supplied as
500 — the bound map has two entries, `threshold` is 500 and `label`
falls back to its default. -/
theorem C7_parameterBindingTotal_witness :
    (bindParameters
        [{ name := "threshold", type := "number", defaultValue := Js.num 1000 },
         { name := "label", type := "string", defaultValue := Js.str "x" }]
        [("threshold", Js.num 500)]).length = 2 ∧
    objGet (bindParameters
        [{ name := "threshold", type := "number", defaultValue := Js.num 1000 },
         { name := "label", type := "string", defaultValue := Js.str "x" }]
        [("threshold", Js.num 500)]) "threshold" = some (Js.num 500) ∧
    objGet (bindParameters
        [{ name := "threshold", type := "number", defaultValue := Js.num 1000 },
         { name := "label", type := "string", defaultValue := Js.str "x" }]
        [("threshold", Js.num 500)]) "label" = some (Js.str "x") := by
  have h := C7_parameterBindingTotal
    [{ name := "threshold", type := "number", defaultValue := Js.num 1000 },
     { name := "label", type := "string", defaultValue := Js.str "x" }]
    [("threshold", Js.num 500)]
    (by decide) (by decide) (by decide)
    ⟨{ name := "label", type := "string", defaultValue := Js.str "x" },
      by decide, by decide⟩
  refine ⟨h.1, ?_, ?_⟩
  · exact h.2.1 ("threshold", Js.num 500) (by decide)
  · exact h.2.2 { name := "label", type := "string", defaultValue := Js.str "x" }
      (by decide) (by decide)

/-- C8 counterexample: a parseable response that violates the declared
schema (its required `code` field is absent while `confidence` reads
`high`) makes the generator return the stub source with confidence
`high`, not `low`, refuting the claim that every malformed return is
surfaced with low confidence. -/
theorem C8_counterexample :
    (generatePandasCode (.ok malformedGenResponse)).code
      = "# Unable to generate code" ∧
    (generatePandasCode (.ok malformedGenResponse)).confidence = "high" ∧
    "high" ≠ "low" := by
  refine ⟨rfl, rfl, by decide⟩

/-- C8 amended: the generator and the repair entry point never raise
past their boundary — a thrown remote call (or unparsable payload)
yields the full comment-stub unit with confidence `low` and the failure
explanation, while a parsed payload has each absent field defaulted
independently (stub source, low confidence, failure explanation), so
fields that are present are kept even when others are missing. -/
theorem C8_generatorNeverRaises (e : String) (r : ParsedGenResponse) :
    generatePandasCode (.error e) =
      { code := "# Error generating code: " ++ e, confidence := "low",
        parameters := [], explanation := "Failed to generate code due to an error" } ∧
    improveCode (.error e) =
      { code := "# Error fixing code: " ++ e, confidence := "low",
        parameters := [], explanation := "Failed to fix code due to an error" } ∧
    (r.code = none → (generatePandasCode (.ok r)).code = "# Unable to generate code") ∧
    (r.confidence = none → (generatePandasCode (.ok r)).confidence = "low") ∧
    (r.explanation = none →
      (generatePandasCode (.ok r)).explanation = "Code generation failed") := by
  refine ⟨rfl, rfl, ?_, ?_, ?_⟩ <;> intro h <;> simp [generatePandasCode, jsOrString, h]

/-- Witness for C8 amended at a thrown call with message `boom` and the
empty parsed payload. -/
theorem C8_generatorNeverRaises_witness :
    generatePandasCode (.error "boom") =
      { code := "# Error generating code: boom", confidence := "low",
        parameters := [], explanation := "Failed to generate code due to an error" } ∧
    improveCode (.error "boom") =
      { code := "# Error fixing code: boom", confidence := "low",
        parameters := [], explanation := "Failed to fix code due to an error" } ∧
    (generatePandasCode (.ok {})).code = "# Unable to generate code" ∧
    (generatePandasCode (.ok {})).confidence = "low" ∧
    (generatePandasCode (.ok {})).explanation = "Code generation failed" := by
  have h := C8_generatorNeverRaises "boom" {}
  exact ⟨h.1, h.2.1, h.2.2.1 rfl, h.2.2.2.1 rfl, h.2.2.2.2 rfl⟩

/-- C9 counterexample: with a playbook whose source is `interval = 2`
and a mapping binding parameter `val` to 5, the binder does not fail
with a contract violation on the collision (the name `val` occurs only
inside the identifier `interval`); it silently rewrites the source,
corrupting the identifier to `inter5`. -/
theorem C9_counterexample :
    applyParameterMapping "interval = 2" [("val", Js.num 5)] = "inter5 = 2" ∧
    "inter5 = 2" ≠ "interval = 2" := by
  refine ⟨by decide, by decide⟩

/-- C9 amended: playbook substitution performs no uniqueness
verification and has no failure path — it is a blind global textual
replacement: a parameter name that does not occur in the source leaves
the source unchanged, and every occurrence is rewritten, including
occurrences inside string literals (shown concretely: `val` bound to
5 corrupts the literal `"value"` to `"5ue"`). -/
theorem C9_blindGlobalSubstitution (code p : String) (v : Js)
    (hp : p.toList ≠ []) (hno : occursIn p.toList code.toList = false) :
    applyParameterMapping code [(p, v)] = code ∧
    applyParameterMapping "name = \"value\"" [("val", Js.num 5)]
      = "name = \"5ue\"" := by
  constructor
  · show jsReplaceAll code p (jsonStringify v) = code
    exact jsReplaceAll_of_not_occurs hp hno
  · decide

/-- Witness for C9 amended: parameter `val` does not occur in
`score = 2`, so the source is unchanged. -/
theorem C9_blindGlobalSubstitution_witness :
    applyParameterMapping "score = 2" [("val", Js.num 5)] = "score = 2" ∧
    applyParameterMapping "name = \"value\"" [("val", Js.num 5)]
      = "name = \"5ue\"" :=
  C9_blindGlobalSubstitution "score = 2" "val" (Js.num 5) (by decide) (by decide)

/-- C10: the download endpoint does not read persisted full output — for
every completed run it re-invokes the executor on the stored generated
code with exactly the sheet preview sample as input, the same input the
run endpoint passes at execution time, so the downloaded dataset is
derived from at most the preview rows regardless of the sheet total
`rowCount`. -/
theorem C10_downloadReExecutesOnPreview (r : RunRecord) (sheets : List Sheet)
    (sheet : Sheet) (s : Summary) (exec : ExecCall → ExecutionResult)
    (hst : r.status = "completed") (hsum : r.resultSummary = some s)
    (hsh : findSheet sheets r.sheetName = some sheet) :
    (apiDownloadHandler (some r) (some sheets) exec).2 =
      some { code := r.generatedCode, inputData := sheet.preview,
             parameters := r.parameters.getD [] } ∧
    ((apiDownloadHandler (some r) (some sheets) exec).2.map
        (fun c => c.inputData)) =
      ((apiRunExecCall (some sheets) r.sheetName r.generatedCode
          (r.parameters.getD [])).map (fun c => c.inputData)) := by
  have hmain : (apiDownloadHandler (some r) (some sheets) exec).2 =
      some { code := r.generatedCode, inputData := sheet.preview,
             parameters := r.parameters.getD [] } := by
    unfold apiDownloadHandler
    dsimp only
    rw [hst, hsum, hsh, if_pos rfl]
    dsimp only
    by_cases hsucc :
        (exec { code := r.generatedCode, inputData := sheet.preview,
                parameters := r.parameters.getD [] }).success = true
    · rcases hdata :
          (exec { code := r.generatedCode, inputData := sheet.preview,
                  parameters := r.parameters.getD [] }).data with _ | rows
      · simp [hsucc, hdata]
      · simp [hsucc, hdata]
    · simp [hsucc]
  refine ⟨hmain, ?_⟩
  rw [hmain]
  unfold apiRunExecCall
  dsimp only
  rw [hsh]
  rfl

/-- Witness for C10: a completed run over a sheet whose full dataset has
100 rows but whose stored preview has a single row — the download
handler invokes the executor with exactly that one preview row as
input. -/
theorem C10_downloadReExecutesOnPreview_witness :
    (apiDownloadHandler
        (some { id := "run1", uploadId := "u1", sheetName := "Sheet1",
                generatedCode := "c", parameters := none, status := "completed",
                resultSummary := some { originalRowCount := 1, resultRowCount := 1,
                                        rowsAffected := 0, preview := [] } })
        (some [{ name := "Sheet1", rowCount := 100, columnCount := 1,
                 columns := [], preview := [[("a", Js.num 1)]] }])
        (fun _ => { success := false, executionTime := 0 })).2 =
      some { code := "c", inputData := [[("a", Js.num 1)]], parameters := [] } :=
  (C10_downloadReExecutesOnPreview
      { id := "run1", uploadId := "u1", sheetName := "Sheet1",
        generatedCode := "c", parameters := none, status := "completed",
        resultSummary := some { originalRowCount := 1, resultRowCount := 1,
                                rowsAffected := 0, preview := [] } }
      [{ name := "Sheet1", rowCount := 100, columnCount := 1,
         columns := [], preview := [[("a", Js.num 1)]] }]
      { name := "Sheet1", rowCount := 100, columnCount := 1,
        columns := [], preview := [[("a", Js.num 1)]] }
      { originalRowCount := 1, resultRowCount := 1, rowsAffected := 0, preview := [] }
      (fun _ => { success := false, executionTime := 0 })
      rfl rfl (by decide)).1
